import Mathlib

/-!
Verification of the release-gating version comparator
(`.github/workflows/scripts/detect_release.py`).

The script is embedded shallowly:

* Python exceptions are modelled by `Except PyExc`; a `.error e` result of an
  embedded function means the corresponding Python call raises `e` uncaught.
* `tomllib.loads` is external library code; it is modelled as an explicit
  function parameter `loads : String → Except PyExc Toml` (it either returns a
  parsed document or raises `TOMLDecodeError`).  TOML values are restricted to
  strings and tables, which is all the claims exercise.
* `subprocess.run(..., check=True)` has three relevant outcomes, modelled by
  `SubprocessResult`: normal completion with captured stdout, a non-zero exit
  status (Python raises `subprocess.CalledProcessError`), and failure to
  execute the program at all (Python raises `OSError`/`FileNotFoundError`,
  which the script does not catch).
* The environment, filesystem, and git behaviour of one run are collected in a
  `World` record; `main` is a pure function of a `World`.
-/

namespace DetectRelease

/-- Python exceptions that can arise in the script.  `fileNotFound` stands for
`FileNotFoundError` (both the missing-manifest case and the
cannot-execute-subprocess case, where Python raises the same class),
`keyError` for `KeyError`, `typeError` for `TypeError`, and `tomlDecodeError`
for `tomllib.TOMLDecodeError` (a subclass of `ValueError`, and notably not of
`FileNotFoundError` or `KeyError`). -/
inductive PyExc where
  | fileNotFound
  | keyError
  | typeError
  | tomlDecodeError
deriving DecidableEq

/-- Outcome of `subprocess.run([...], capture_output=True, text=True,
check=True)`: `ok stdout` for a zero exit status, `exitFailure` for a non-zero
exit status (raises `subprocess.CalledProcessError`), `execError` when the
executable cannot be run at all (raises `OSError`, e.g. `FileNotFoundError`
when `git` is not installed). -/
inductive SubprocessResult where
  | ok : String → SubprocessResult
  | exitFailure : SubprocessResult
  | execError : SubprocessResult
deriving DecidableEq

/-- TOML values, restricted to the constructors the claims exercise: strings
and tables.  `tomllib.loads` always returns a table at top level; nested
values reached through subscripting may be strings or tables. -/
inductive Toml where
  | vStr : String → Toml
  | vTable : List (String × Toml) → Toml

mutual

/-- Python `==`/`!=` on the modelled TOML values.  (Python dict equality is
order-insensitive, but `tomllib` rejects duplicate keys and no claim compares
two tables, so order-sensitive structural equality is an adequate model.) -/
def tomlBeq : Toml → Toml → Bool
  | .vStr a, .vStr b => a == b
  | .vTable a, .vTable b => tomlBeqKVs a b
  | _, _ => false

/-- Componentwise equality of table entry lists, for `tomlBeq`. -/
def tomlBeqKVs : List (String × Toml) → List (String × Toml) → Bool
  | [], [] => true
  | (k1, v1) :: r1, (k2, v2) :: r2 => k1 == k2 && tomlBeq v1 v2 && tomlBeqKVs r1 r2
  | _, _ => false

end

/-- Python truthiness of a modelled TOML value: an empty string and an empty
dict are falsy, everything else is truthy. -/
def pyTruthy : Toml → Bool
  | .vStr s => !(s == "")
  | .vTable kvs => !kvs.isEmpty

/-- Python truthiness of an optional value: `None` is falsy, otherwise the
truthiness of the value. -/
def pyTruthyOpt : Option Toml → Bool
  | none => false
  | some v => pyTruthy v

/-- Python subscript `data[k]` on a parsed TOML value: on a dict it returns
the entry or raises `KeyError`; on a string it raises `TypeError` (string
indices must be integers). -/
def subscript : Toml → String → Except PyExc Toml
  | .vTable kvs, k =>
      match kvs.find? (fun kv => kv.1 == k) with
      | some kv => .ok kv.2
      | none => .error .keyError
  | .vStr _, _ => .error .typeError

/-- Embedding of `get_version(cargo_toml_path, content=None)`:

    try:
      if content is None:
        content = Path(cargo_toml_path).read_text()
      data = tomllib.loads(content)
      return data["package"]["version"]
    except (FileNotFoundError, KeyError):
      return None

`loads` models `tomllib.loads`; `readResult` models
`Path(cargo_toml_path).read_text()` (`.error .fileNotFound` when the file is
missing).  Only `FileNotFoundError` and `KeyError` are caught; every other
exception of the body (in particular `TOMLDecodeError`) propagates. -/
def get_version (loads : String → Except PyExc Toml) (readResult : Except PyExc String)
    (content : Option String) : Except PyExc (Option Toml) :=
  let body : Except PyExc Toml := do
    let c ← match content with
      | some c => Except.ok c
      | none => readResult
    let data ← loads c
    let pkg ← subscript data "package"
    subscript pkg "version"
  match body with
  | .ok v => .ok (some v)
  | .error .fileNotFound => .ok none
  | .error .keyError => .ok none
  | .error e => .error e

/-- The null commit reference `"0" * 40`. -/
def nullSha : String := String.mk (List.replicate 40 '0')

/-- Embedding of `get_previous_content(before_sha, path)`:

    if before_sha == "0" * 40:
      return None
    try:
      result = subprocess.run(["git", "show", f"sha:path"], ..., check=True)
      return result.stdout
    except subprocess.CalledProcessError:
      return None

`gitShow sha path` models the `git show` subprocess.  A `CalledProcessError`
is caught (absent content); an `OSError` from being unable to execute `git` is
not caught and propagates. -/
def get_previous_content (gitShow : String → String → SubprocessResult)
    (before_sha path : String) : Except PyExc (Option String) :=
  if before_sha = nullSha then .ok none
  else
    match gitShow before_sha path with
    | .ok out => .ok (some out)
    | .exitFailure => .ok none
    | .execError => .error .fileNotFound

/-- Model of Python `v.split(".")` on the underlying character list: split on
every occurrence of `'.'`, keeping empty chunks (so `"".split(".") == [""]`
and `"1..2".split(".") == ["1", "", "2"]`). -/
def splitDotAux : List Char → List (List Char)
  | [] => [[]]
  | c :: rest =>
    let r := splitDotAux rest
    if c = '.' then [] :: r
    else match r with
      | h :: t => (c :: h) :: t
      | [] => [[c]]

/-- Python `v.split(".")`. -/
def splitDot (s : String) : List String :=
  (splitDotAux s.toList).map (fun l => String.mk l)

/-- Python `p.isdigit()` for the ASCII version strings found in manifests: the
string is non-empty and every character is a decimal digit.  (Python's
`str.isdigit` also accepts some non-ASCII digit characters; manifest version
strings are ASCII and the claims only concern ASCII examples, so the ASCII
model is used.) -/
def pyIsDigitStr (s : String) : Bool :=
  !s.toList.isEmpty && s.toList.all Char.isDigit

/-- Python `int(p)` for a digit string: its decimal value. -/
def pyInt (s : String) : Nat :=
  s.toList.foldl (fun n c => n * 10 + (c.toNat - '0'.toNat)) 0

/-- Embedding of the inner `version_tuple` of `compare_versions`:

    def version_tuple(v):
      parts = v.split(".")
      return tuple(int(p) for p in parts if p.isdigit())

Because the comprehension filters with `p.isdigit()` before calling `int(p)`,
`int` is only ever applied to digit strings and (for ASCII strings) never
raises: non-numeric components are silently dropped. -/
def version_tuple (v : String) : List Nat :=
  (splitDot v).filterMap (fun p => if pyIsDigitStr p then some (pyInt p) else none)

/-- Python `>` on tuples of integers: strict lexicographic comparison, where a
strict prefix of the other tuple compares as smaller. -/
def pyTupleGT : List Nat → List Nat → Bool
  | [], _ => false
  | _ :: _, [] => true
  | a :: ra, b :: rb => if b < a then true else if a < b then false else pyTupleGT ra rb

/-- Applying `version_tuple` to a value of the modelled TOML type: on a string
it computes the tuple; on a non-string value `v.split` raises
`AttributeError`, modelled as `none`. -/
def tomlVersionTuple : Toml → Option (List Nat)
  | .vStr s => some (version_tuple s)
  | .vTable _ => none

/-- Embedding of `compare_versions(prev, curr)`:

    if prev is None or curr is None:
      return False
    ...
    try:
      prev_tuple = version_tuple(prev)
      curr_tuple = version_tuple(curr)
      return curr_tuple > prev_tuple
    except (ValueError, AttributeError):
      return prev != curr

For string arguments `version_tuple` cannot raise (see `version_tuple`), so
the `except` fallback is reached only when an argument is a non-string TOML
value (`AttributeError` from `v.split`); it then compares `prev != curr`. -/
def compare_versions (prev curr : Option Toml) : Bool :=
  match prev, curr with
  | none, _ => false
  | _, none => false
  | some p, some c =>
    match tomlVersionTuple p, tomlVersionTuple c with
    | some pt, some ct => pyTupleGT ct pt
    | _, _ => !tomlBeq p c

/-- One run's external state: the two environment variables read by `main`
(`os.environ.get(name, "")` returns `""` when the variable is unset, so a
plain `String` with `""` for "unset" is a faithful model), the prior content
of the `GITHUB_OUTPUT` file, the filesystem (`readText` models
`Path(p).read_text()`), `tomllib.loads`, and the two git subprocesses. -/
structure World where
  before_sha_env : String
  github_output : String
  output_prior : String
  readText : String → Except PyExc String
  loads : String → Except PyExc Toml
  gitShow : String → String → SubprocessResult
  gitRevParseParent : SubprocessResult

/-- Model of Python `s.strip()`: drop whitespace characters from both ends. -/
def pyStrip (s : String) : String :=
  String.mk (((s.toList.dropWhile Char.isWhitespace).reverse.dropWhile Char.isWhitespace).reverse)

/-- Embedding of the base-commit resolution at the top of `main`:

    before_sha = os.environ.get("BEFORE_SHA", "")
    if not before_sha:
      try:
        result = subprocess.run(["git", "rev-parse", "HEAD^"], ..., check=True)
        before_sha = result.stdout.strip()
        if not before_sha:
          before_sha = "0" * 40
      except subprocess.CalledProcessError:
        before_sha = "0" * 40

As in `get_previous_content`, only `CalledProcessError` is caught; an
`OSError` from being unable to execute `git` propagates. -/
def resolve_before_sha (w : World) : Except PyExc String :=
  if w.before_sha_env = "" then
    match w.gitRevParseParent with
    | .ok out =>
        if pyStrip out = "" then .ok nullSha else .ok (pyStrip out)
    | .exitFailure => .ok nullSha
    | .execError => .error .fileNotFound
  else .ok w.before_sha_env

/-- The four decision variables accumulated by `main`'s loop. -/
structure Flags where
  server_release_needed : Bool
  client_release_needed : Bool
  server_version : Option Toml
  client_version : Option Toml

/-- Initial values of the decision variables (lines 72-75 of the script). -/
def initFlags : Flags :=
  { server_release_needed := false, client_release_needed := false
  , server_version := none, client_version := none }

/-- Embedding of the body of the loop over `BINARY_CRATES.items()` after the
two versions have been resolved (lines 84-105):

    if current_version:
      is_first_release = previous_version is None
      version_bumped = compare_versions(previous_version, current_version) if previous_version else False
      if release_name == "chatty":
        client_version = current_version
        if is_first_release or version_bumped:
          client_release_needed = True
      elif release_name == "chatty-server":
        server_version = current_version
        if is_first_release or version_bumped:
          server_release_needed = True

Note the asymmetry in the source: `is_first_release` tests `is None`, while
the guard on `version_bumped` and the outer guard test truthiness. -/
def stepFlags (fl : Flags) (release_name : String) (previous_version current_version : Option Toml) :
    Flags :=
  match current_version with
  | some cv =>
    if pyTruthy cv then
      let is_first_release : Bool := previous_version.isNone
      let version_bumped : Bool :=
        if pyTruthyOpt previous_version then compare_versions previous_version (some cv) else false
      if release_name = "chatty" then
        if is_first_release || version_bumped then
          { fl with client_version := some cv, client_release_needed := true }
        else
          { fl with client_version := some cv }
      else if release_name = "chatty-server" then
        if is_first_release || version_bumped then
          { fl with server_version := some cv, server_release_needed := true }
        else
          { fl with server_version := some cv }
      else fl
    else fl
  | none => fl

/-- The manifest path of the single configured artifact. -/
def chattyCratePath : String := "crates/chatty_client_gui/Cargo.toml"

/-- The static configuration table `BINARY_CRATES` of the script: a single
entry mapping the client manifest to the release name `"chatty"`. -/
def BINARY_CRATES : List (String × String) := [(chattyCratePath, "chatty")]

/-- Embedding of line 80 of the script:

    previous_version = get_version(crate_path, prev_content) if prev_content else None

The guard is Python truthiness of `prev_content : str | None`, so both `None`
and the empty string bypass `get_version`. -/
def resolve_previous_version (loads : String → Except PyExc Toml)
    (readResult : Except PyExc String) (prev_content : Option String) :
    Except PyExc (Option Toml) :=
  match prev_content with
  | some pc => if pc = "" then .ok none else get_version loads readResult (some pc)
  | none => .ok none

/-- Embedding of the loop `for crate_path, release_name in BINARY_CRATES.items()`
(lines 77-105): resolve the current version from the working tree, fetch the
manifest content at the base commit, resolve the previous version from it, and
update the decision variables.  Console `print` calls have no bearing on the
decision state and are omitted. -/
def runCrates (w : World) (before_sha : String) :
    List (String × String) → Flags → Except PyExc Flags
  | [], fl => .ok fl
  | (crate_path, release_name) :: rest, fl => do
      let current_version ← get_version w.loads (w.readText crate_path) none
      let prev_content ← get_previous_content w.gitShow before_sha crate_path
      let previous_version ← resolve_previous_version w.loads (w.readText crate_path) prev_content
      runCrates w before_sha rest (stepFlags fl release_name previous_version current_version)

/-- Python `'true' if b else 'false'`. -/
def boolStr (b : Bool) : String := if b then "true" else "false"

/-- Python `str()` of a modelled TOML value as used in the output f-strings.
A string renders as itself.  The exact `repr`-style rendering of a dict is
irrelevant to every claim (only which keys are emitted matters), so it is a
fixed placeholder. -/
def pyStr : Toml → String
  | .vStr s => s
  | .vTable _ => "<table>"

/-- Python `str()` of an optional value (`None` renders as `"None"`; the
output code only renders values it has checked to be truthy). -/
def pyStrOpt : Option Toml → String
  | some v => pyStr v
  | none => "None"

/-- The key=value pairs written to `GITHUB_OUTPUT` (lines 112-117): the two
release flags unconditionally, then each version key only when that version
variable is truthy:

    f.write(f"server_release_needed=...")
    f.write(f"client_release_needed=...")
    if server_version:
      f.write(f"server_version=...")
    if client_version:
      f.write(f"client_version=...")
-/
def outputPairs (fl : Flags) : List (String × String) :=
  [("server_release_needed", boolStr fl.server_release_needed),
   ("client_release_needed", boolStr fl.client_release_needed)]
  ++ (if pyTruthyOpt fl.server_version then [("server_version", pyStrOpt fl.server_version)] else [])
  ++ (if pyTruthyOpt fl.client_version then [("client_version", pyStrOpt fl.client_version)] else [])

/-- One written line `f"key=value\n"`. -/
def renderPair (kv : String × String) : String := kv.1 ++ "=" ++ kv.2 ++ "\n"

/-- Observable outcome of a successful run: the final decision variables, the
key=value pairs written to the output file (empty when `GITHUB_OUTPUT` is
unset), and the resulting content of the output file.  The file is opened
with `open(output_file, "a")`, so the new lines are appended after the prior
content. -/
structure MainResult where
  flags : Flags
  output_pairs : List (String × String)
  output_content : String

/-- Embedding of `main()`: resolve the base commit, process the configured
crates, and append the results to the output file when one is configured. -/
def main (w : World) : Except PyExc MainResult := do
  let before_sha ← resolve_before_sha w
  let fl ← runCrates w before_sha BINARY_CRATES initFlags
  if w.github_output = "" then
    .ok { flags := fl, output_pairs := [], output_content := w.output_prior }
  else
    .ok { flags := fl, output_pairs := outputPairs fl
        , output_content := w.output_prior ++ String.join ((outputPairs fl).map renderPair) }

/-- Transition classification of the spec's data model (section 3). -/
inductive Transition where
  | FirstRelease
  | Bump
  | NoChange
  | Indeterminate
deriving DecidableEq

/-- Modelled from the spec: the Transition between a previous and a current
version — `Indeterminate` when the current version is absent, `FirstRelease`
when only the previous version is absent, otherwise `Bump` exactly when the
comparator orders current strictly above previous and `NoChange` otherwise.
This definition follows the spec's words and is compared against the code's
behaviour by the claims. -/
def specTransition : Option Toml → Option Toml → Transition
  | _, none => .Indeterminate
  | none, some _ => .FirstRelease
  | some p, some c =>
      if compare_versions (some p) (some c) then .Bump else .NoChange

/-! ## Helper lemmas about the comparator -/

/-- If no element of `l` passes the digit filter, the comprehension of
`version_tuple` produces the empty tuple. -/
theorem filterMap_digits_all_false {l : List String}
    (h : ∀ s ∈ l, pyIsDigitStr s = false) :
    l.filterMap (fun p => if pyIsDigitStr p then some (pyInt p) else none) = [] := by
  induction l with
  | nil => rfl
  | cons x xs ih =>
      have hx : pyIsDigitStr x = false := h x (by simp)
      have hxs : ∀ s ∈ xs, pyIsDigitStr s = false := fun s hs => h s (by simp [hs])
      simp [List.filterMap_cons, hx, ih hxs]

/-- If every element of `l` passes the digit filter, the comprehension of
`version_tuple` keeps every component. -/
theorem filterMap_digits_all_true {l : List String}
    (h : ∀ s ∈ l, pyIsDigitStr s = true) :
    l.filterMap (fun p => if pyIsDigitStr p then some (pyInt p) else none) = l.map pyInt := by
  induction l with
  | nil => rfl
  | cons x xs ih =>
      have hx : pyIsDigitStr x = true := h x (by simp)
      have hxs : ∀ s ∈ xs, pyIsDigitStr s = true := fun s hs => h s (by simp [hs])
      simp [List.filterMap_cons, hx, ih hxs]

/-- Python tuple `>` agrees with the lexicographic strict order on lists (in
which a strict prefix is smaller): `a > b` holds exactly when `b` is
lexicographically below `a`. -/
theorem pyTupleGT_eq_true_iff (a b : List Nat) :
    pyTupleGT a b = true ↔ List.Lex (· < ·) b a := by
  induction a generalizing b with
  | nil =>
      cases b with
      | nil => simp [pyTupleGT]
      | cons y ys => simp [pyTupleGT]
  | cons x xs ih =>
      cases b with
      | nil =>
          constructor
          · intro _; exact List.Lex.nil
          · intro _; rfl
      | cons y ys =>
          by_cases h1 : y < x
          · constructor
            · intro _; exact List.Lex.rel h1
            · intro _; simp [pyTupleGT, h1]
          · by_cases h2 : x < y
            · constructor
              · intro hfalse
                simp [pyTupleGT, h1, h2] at hfalse
              · intro hlex
                cases hlex with
                | cons h => exact absurd h2 (lt_irrefl x)
                | rel h => exact absurd h h1
            · have hxy : x = y := by omega
              subst hxy
              constructor
              · intro h
                have hrec : pyTupleGT xs ys = true := by
                  simpa [pyTupleGT, h1] using h
                exact List.Lex.cons ((ih ys).mp hrec)
              · intro hlex
                cases hlex with
                | cons h =>
                    simpa [pyTupleGT, h1] using (ih ys).mpr h
                | rel h => exact absurd h h1

/-- Reduction of the exception monad: binding after a normal result applies
the continuation. -/
@[simp] theorem except_bind_ok {ε α β : Type} (a : α) (f : α → Except ε β) :
    (Except.ok a >>= f) = f a := rfl

/-- Reduction of the exception monad: binding after a raised exception
propagates the exception. -/
@[simp] theorem except_bind_error {ε α β : Type} (e : ε) (f : α → Except ε β) :
    ((Except.error e : Except ε α) >>= f) = Except.error e := rfl

/-! ## Claim theorems -/

/-- C1, counterexample to the claim as stated.  The claim asserts that when
every dot-separated component of both version strings is non-numeric, the
comparator falls back to string inequality, so that `"abc"` vs `"xyz"` is
classified as a bump.  In the code the digit filter runs before `int` is ever
called, so both strings parse to the empty tuple, `() > ()` is `False`, and
the `except` fallback is never reached: `compare_versions("abc", "xyz")`
returns `False` even though the strings differ. -/
theorem compare_versions_nonnumeric_counterexample :
    compare_versions (some (.vStr "abc")) (some (.vStr "xyz")) = false ∧
      ("abc" : String) ≠ "xyz" := by
  constructor
  · decide
  · decide

/-- C1, amended.  For every pair of present version strings in which every
dot-separated component of both strings is non-numeric, both strings parse to
the empty integer tuple and the comparator returns `False` (`NoChange`)
regardless of whether the strings are equal; the string-inequality fallback in
the source is unreachable for string inputs. -/
theorem compare_versions_all_nonnumeric_eq_false (p c : String)
    (hp : ∀ s ∈ splitDot p, pyIsDigitStr s = false)
    (hc : ∀ s ∈ splitDot c, pyIsDigitStr s = false) :
    compare_versions (some (.vStr p)) (some (.vStr c)) = false := by
  have h1 : version_tuple p = [] := filterMap_digits_all_false hp
  have h2 : version_tuple c = [] := filterMap_digits_all_false hc
  simp [compare_versions, tomlVersionTuple, h1, h2, pyTupleGT]

/-- C1, witness for the amended theorem at the concrete pair
`("alpha.beta", "gamma")`. -/
theorem compare_versions_all_nonnumeric_eq_false_witness :
    (∀ s ∈ splitDot "alpha.beta", pyIsDigitStr s = false) ∧
    (∀ s ∈ splitDot "gamma", pyIsDigitStr s = false) ∧
    compare_versions (some (.vStr "alpha.beta")) (some (.vStr "gamma")) = false :=
  ⟨by decide, by decide,
    compare_versions_all_nonnumeric_eq_false "alpha.beta" "gamma" (by decide) (by decide)⟩

/-- C4 (confirmed).  For present version strings whose dot-separated
components are all purely numeric, every component is kept by the digit
filter, and the comparator classifies a bump exactly when the current integer
sequence is lexicographically strictly greater than the previous one, where a
strict prefix compares as smaller (`List.Lex (· < ·)`). -/
theorem compare_versions_numeric_lex (p c : String)
    (hp : ∀ s ∈ splitDot p, pyIsDigitStr s = true)
    (hc : ∀ s ∈ splitDot c, pyIsDigitStr s = true) :
    version_tuple p = (splitDot p).map pyInt ∧
    version_tuple c = (splitDot c).map pyInt ∧
    (compare_versions (some (.vStr p)) (some (.vStr c)) = true ↔
      List.Lex (· < ·) (version_tuple p) (version_tuple c)) := by
  refine ⟨filterMap_digits_all_true hp, filterMap_digits_all_true hc, ?_⟩
  simp only [compare_versions, tomlVersionTuple]
  exact pyTupleGT_eq_true_iff (version_tuple c) (version_tuple p)

/-- C4, witness at the pair `("1.2", "1.2.0")` of the spec's edge case: the
shorter sequence is a strict prefix, so `"1.2" < "1.2.0"` and the comparator
reports a bump. -/
theorem compare_versions_numeric_lex_witness :
    (∀ s ∈ splitDot "1.2", pyIsDigitStr s = true) ∧
    (∀ s ∈ splitDot "1.2.0", pyIsDigitStr s = true) ∧
    (compare_versions (some (.vStr "1.2")) (some (.vStr "1.2.0")) = true ↔
      List.Lex (· < ·) (version_tuple "1.2") (version_tuple "1.2.0")) ∧
    compare_versions (some (.vStr "1.2")) (some (.vStr "1.2.0")) = true ∧
    compare_versions (some (.vStr "1.2.0")) (some (.vStr "1.2")) = false :=
  ⟨by decide, by decide,
    (compare_versions_numeric_lex "1.2" "1.2.0" (by decide) (by decide)).2.2,
    by decide, by decide⟩

/-- C9 (confirmed).  `compare_versions` is a total function in the embedding
(for string arguments no operation of its body can raise: the digit filter
precedes `int`, and the `except` fallback handles the remaining cases), and
whenever either argument is `None` it returns `False` by its first guard. -/
theorem compare_versions_total_absent_false (p c : Option Toml)
    (h : p = none ∨ c = none) : compare_versions p c = false := by
  rcases h with h | h
  · subst h; cases c <;> rfl
  · subst h; cases p <;> rfl

/-- C9, witness at `(Some "1.0.0", None)`. -/
theorem compare_versions_total_absent_false_witness :
    ((some (Toml.vStr "1.0.0") : Option Toml) = none ∨ (none : Option Toml) = none) ∧
    compare_versions (some (.vStr "1.0.0")) none = false :=
  ⟨Or.inr rfl, compare_versions_total_absent_false (some (.vStr "1.0.0")) none (Or.inr rfl)⟩

/-- Model of `tomllib.loads` on a document that is not well-formed TOML, such
as the literal text `[[[`: the parser raises `TOMLDecodeError` for every
input it is given here. -/
def loadsMalformed : String → Except PyExc Toml := fun _ => .error PyExc.tomlDecodeError

/-- C2, counterexample to the claim as stated.  A malformed manifest does not
resolve to absent: `tomllib.loads` raises `TOMLDecodeError`, which is a
`ValueError` and therefore not caught by the script's
`except (FileNotFoundError, KeyError)` clause, so `get_version` raises. -/
theorem get_version_malformed_counterexample :
    get_version loadsMalformed (.ok "[[[") (some "[[[") = .error PyExc.tomlDecodeError := rfl

/-- C2, amended.  `get_version` returns absent (rather than raising) when the
manifest file is missing, and when the document parses but the subscripting
`data["package"]["version"]` fails with a `KeyError` (either key missing from
its table); but a document that fails TOML parsing raises `TOMLDecodeError`,
which propagates out of `get_version`. -/
theorem get_version_absorbs_missing_and_keyerror
    (loads : String → Except PyExc Toml) (readResult : Except PyExc String)
    (content : String) (data : Toml) :
    (get_version loads (.error .fileNotFound) none = .ok none) ∧
    (loads content = .ok data → subscript data "package" = .error .keyError →
      get_version loads readResult (some content) = .ok none) ∧
    (∀ pkg, loads content = .ok data → subscript data "package" = .ok pkg →
      subscript pkg "version" = .error .keyError →
      get_version loads readResult (some content) = .ok none) ∧
    (loads content = .error .tomlDecodeError →
      get_version loads readResult (some content) = .error .tomlDecodeError) := by
  refine ⟨rfl, ?_, ?_, ?_⟩
  · intro h1 h2
    simp [get_version, h1, h2]
  · intro pkg h1 h2 h3
    simp [get_version, h1, h2, h3]
  · intro h1
    simp [get_version, h1]

/-- C2, witness for the amended theorem: the missing-file arm and the
missing-key arm evaluated at the concrete document `[package]` with an empty
package table (no `version` key), and the malformed arm at `loadsMalformed`. -/
theorem get_version_absorbs_witness :
    (get_version loadsMalformed (.error .fileNotFound) none = .ok none) ∧
    ((fun _ => Except.ok (Toml.vTable [("package", Toml.vTable [])]) :
        String → Except PyExc Toml) "[package]\n" =
      .ok (Toml.vTable [("package", Toml.vTable [])])) ∧
    (get_version (fun _ => Except.ok (Toml.vTable [("package", Toml.vTable [])]))
      (.ok "[package]\n") (some "[package]\n") = .ok none) :=
  ⟨(get_version_absorbs_missing_and_keyerror loadsMalformed (.ok "") ""
      (Toml.vTable [])).1,
    rfl,
    (get_version_absorbs_missing_and_keyerror
        (fun _ => Except.ok (Toml.vTable [("package", Toml.vTable [])]))
        (.ok "[package]\n") "[package]\n"
        (Toml.vTable [("package", Toml.vTable [])])).2.2.1
      (Toml.vTable []) rfl rfl rfl⟩

/-- Model of the `git show` subprocess when `git` itself cannot be executed:
`subprocess.run` raises `OSError` (`FileNotFoundError`) on every call. -/
def gitShowUnavailable : String → String → SubprocessResult := fun _ _ => SubprocessResult.execError

/-- C5, counterexample to the claim as stated.  The claim includes "the
version-control system being unavailable" among the failures that return
absent, but the script only catches `subprocess.CalledProcessError`; when the
`git` executable cannot be run, `subprocess.run` raises
`OSError`/`FileNotFoundError`, which propagates out of
`get_previous_content`. -/
theorem get_previous_content_oserror_counterexample :
    get_previous_content gitShowUnavailable "abcdef1234" "crates/chatty_client_gui/Cargo.toml" =
      .error PyExc.fileNotFound := rfl

/-- C5, amended.  Every history lookup failure that `git` reports with a
non-zero exit status (bad commit reference, path that never existed at that
commit, not a repository) is caught as `CalledProcessError` and yields absent
content without raising; only the inability to execute `git` at all
propagates as an error. -/
theorem get_previous_content_exitfailure_absent
    (gitShow : String → String → SubprocessResult) (sha path : String)
    (h : gitShow sha path = SubprocessResult.exitFailure) :
    get_previous_content gitShow sha path = .ok none := by
  unfold get_previous_content
  by_cases hs : sha = nullSha
  · simp [hs]
  · simp [hs, h]

/-- C5, witness for the amended theorem: a `git show` that exits non-zero for
every query (e.g. a commit reference unknown to the repository). -/
theorem get_previous_content_exitfailure_absent_witness :
    ((fun _ _ => SubprocessResult.exitFailure : String → String → SubprocessResult)
        "abcdef1234" "crates/chatty_client_gui/Cargo.toml" = SubprocessResult.exitFailure) ∧
    get_previous_content (fun _ _ => SubprocessResult.exitFailure)
      "abcdef1234" "crates/chatty_client_gui/Cargo.toml" = .ok none :=
  ⟨rfl, get_previous_content_exitfailure_absent (fun _ _ => SubprocessResult.exitFailure)
    "abcdef1234" "crates/chatty_client_gui/Cargo.toml" rfl⟩

/-- C6 (confirmed).  When the base commit reference is the all-zero null
reference, `get_previous_content` returns absent for every possible behaviour
of the `git show` subprocess — the result does not depend on `gitShow` at all,
which is the shallow-embedding statement that no history query is issued (the
null check is the first statement of the function, before the `subprocess.run`
call). -/
theorem get_previous_content_null_sha
    (gitShow : String → String → SubprocessResult) (path : String) :
    get_previous_content gitShow nullSha path = .ok none := by
  simp [get_previous_content]

/-- A world in which no `BEFORE_SHA` is supplied and the `git rev-parse HEAD^`
subprocess cannot be executed at all. -/
def worldRevParseUnavailable : World :=
  { before_sha_env := ""
  , github_output := ""
  , output_prior := ""
  , readText := fun _ => .error .fileNotFound
  , loads := fun _ => .error .tomlDecodeError
  , gitShow := fun _ _ => .exitFailure
  , gitRevParseParent := .execError }

/-- C7, counterexample to the claim as stated.  The claim says that whenever
the parent resolution fails, the all-zero null reference is used; but only
`CalledProcessError` is caught, so when the resolution attempt fails because
`git` cannot be executed (`OSError`), the error propagates and the null
reference is never substituted. -/
theorem resolve_before_sha_oserror_counterexample :
    resolve_before_sha worldRevParseUnavailable = .error PyExc.fileNotFound ∧
    resolve_before_sha worldRevParseUnavailable ≠ .ok nullSha := by
  constructor
  · rfl
  · intro h
    exact absurd h (by simp [resolve_before_sha, worldRevParseUnavailable])

/-- C7, amended.  The base commit reference is resolved as: a non-empty
`BEFORE_SHA` environment value is used as-is; otherwise the stripped output
of `git rev-parse HEAD^` is used, with the all-zero null reference substituted
when that command exits non-zero or its stripped output is empty; but when
the `git` executable cannot be run at all, the `OSError` propagates instead of
the null reference being used. -/
theorem resolve_before_sha_spec (w : World) (out : String) :
    (w.before_sha_env ≠ "" → resolve_before_sha w = .ok w.before_sha_env) ∧
    (w.before_sha_env = "" → w.gitRevParseParent = .ok out →
      resolve_before_sha w = .ok (if pyStrip out = "" then nullSha else pyStrip out)) ∧
    (w.before_sha_env = "" → w.gitRevParseParent = .exitFailure →
      resolve_before_sha w = .ok nullSha) ∧
    (w.before_sha_env = "" → w.gitRevParseParent = .execError →
      resolve_before_sha w = .error .fileNotFound) := by
  refine ⟨?_, ?_, ?_, ?_⟩
  · intro h
    simp [resolve_before_sha, h]
  · intro h hgit
    by_cases hp : pyStrip out = "" <;> simp [resolve_before_sha, h, hgit, hp]
  · intro h hgit
    simp [resolve_before_sha, h, hgit]
  · intro h hgit
    simp [resolve_before_sha, h, hgit]

/-- A world in which no `BEFORE_SHA` is supplied and `git rev-parse HEAD^`
prints a commit reference followed by a newline. -/
def worldRevParseOk : World :=
  { worldRevParseUnavailable with gitRevParseParent := .ok "abcdef1234\n" }

/-- C7, witness for the amended theorem: with an unset `BEFORE_SHA` and a
successful parent resolution, the stripped stdout becomes the base
reference. -/
theorem resolve_before_sha_spec_witness :
    resolve_before_sha worldRevParseOk =
      .ok (if pyStrip "abcdef1234\n" = "" then nullSha else pyStrip "abcdef1234\n") :=
  (resolve_before_sha_spec worldRevParseOk "abcdef1234\n").2.1 rfl rfl

/-! ## The run over the configured crates -/

/-- Unfolding of the crate loop on the script's one-entry configuration: once
the three resolution steps of the loop body are known, the final decision
state is a single `stepFlags` application for the `"chatty"` entry. -/
theorem runCrates_singleton (w : World) (sha : String) (curr prev : Option Toml)
    (pc : Option String)
    (hcur : get_version w.loads (w.readText chattyCratePath) none = .ok curr)
    (hpc : get_previous_content w.gitShow sha chattyCratePath = .ok pc)
    (hprev : resolve_previous_version w.loads (w.readText chattyCratePath) pc = .ok prev) :
    runCrates w sha BINARY_CRATES initFlags = .ok (stepFlags initFlags "chatty" prev curr) := by
  simp [runCrates, BINARY_CRATES, hcur, hpc, hprev]

/-- A parsed manifest whose `package` table declares the given version
string. -/
def tomlPkg (v : String) : Toml := .vTable [("package", .vTable [("version", .vStr v)])]

/-- Manifest text declaring version `1.0.0`. -/
def manifest100 : String := "[package]\nversion = \"1.0.0\"\n"

/-- Manifest text declaring version `1.1.0`. -/
def manifest110 : String := "[package]\nversion = \"1.1.0\"\n"

/-- Manifest text declaring version `2.0.0`. -/
def manifest200 : String := "[package]\nversion = \"2.0.0\"\n"

/-- Manifest text declaring the empty version string. -/
def manifestEmptyVer : String := "[package]\nversion = \"\"\n"

/-- C3, amended.  For the artifact processed in a run, the release flag is set
if and only if the current version resolved to a truthy (present, non-empty)
value and either the previous version is `None` (first release) or the
previous version is itself truthy and the comparator classifies the
transition as `Bump`; and when the current version is absent or empty the
artifact contributes nothing to the decision state.  (The difference from the
claim as stated: the engine tests Python truthiness, so an empty-string
previous version — present in the spec's sense — blocks both the
first-release and the bump path.) -/
theorem client_release_needed_iff
    (w : World) (sha : String) (curr prev : Option Toml) (pc : Option String) (fl : Flags)
    (hcur : get_version w.loads (w.readText chattyCratePath) none = .ok curr)
    (hpc : get_previous_content w.gitShow sha chattyCratePath = .ok pc)
    (hprev : resolve_previous_version w.loads (w.readText chattyCratePath) pc = .ok prev)
    (hrun : runCrates w sha BINARY_CRATES initFlags = .ok fl) :
    (fl.client_release_needed = true ↔
      (pyTruthyOpt curr = true ∧
        (prev = none ∨
          (pyTruthyOpt prev = true ∧ specTransition prev curr = Transition.Bump)))) ∧
    (pyTruthyOpt curr = false → fl = initFlags) := by
  rw [runCrates_singleton w sha curr prev pc hcur hpc hprev] at hrun
  have hfl : stepFlags initFlags "chatty" prev curr = fl := Except.ok.inj hrun
  subst hfl
  cases curr with
  | none => simp [stepFlags, pyTruthyOpt, initFlags]
  | some cv =>
      by_cases htr : pyTruthy cv
      · cases prev with
        | none => simp [stepFlags, htr, pyTruthyOpt, initFlags]
        | some pv =>
            by_cases hpt : pyTruthy pv
            · by_cases hcmp : compare_versions (some pv) (some cv)
              · simp [stepFlags, htr, hpt, hcmp, pyTruthyOpt, initFlags, specTransition]
              · simp [stepFlags, htr, hpt, hcmp, pyTruthyOpt, initFlags, specTransition]
            · simp [stepFlags, htr, hpt, pyTruthyOpt, initFlags]
      · simp [stepFlags, htr, pyTruthyOpt, initFlags]

/-- A run in which the previous manifest declares the empty version string and
the current manifest declares `1.0.0`. -/
def worldEmptyPrevVersion : World :=
  { before_sha_env := "abcdef1234"
  , github_output := ""
  , output_prior := ""
  , readText := fun p => if p = chattyCratePath then .ok manifest100 else .error .fileNotFound
  , loads := fun s =>
      if s = manifest100 then .ok (tomlPkg "1.0.0")
      else if s = manifestEmptyVer then .ok (tomlPkg "") else .error .tomlDecodeError
  , gitShow := fun _ _ => .ok manifestEmptyVer
  , gitRevParseParent := .exitFailure }

/-- C3, counterexample to the claim as stated.  In `worldEmptyPrevVersion` the
previous version resolves to the present (in the spec's sense) empty string
and the current version to `1.0.0`; the spec's Transition for this pair is
`Bump` (the comparator orders `() < (1, 0, 0)`), so the claim requires the
release flag to be set, but the engine's truthiness guard on
`previous_version` skips `compare_versions` and leaves the flag `false`. -/
theorem release_flag_empty_prev_counterexample :
    resolve_previous_version worldEmptyPrevVersion.loads
      (worldEmptyPrevVersion.readText chattyCratePath) (some manifestEmptyVer) =
        .ok (some (.vStr "")) ∧
    specTransition (some (.vStr "")) (some (.vStr "1.0.0")) = Transition.Bump ∧
    main worldEmptyPrevVersion =
      .ok { flags := { server_release_needed := false, client_release_needed := false
                     , server_version := none, client_version := some (.vStr "1.0.0") }
          , output_pairs := [], output_content := "" } :=
  ⟨rfl, by decide, rfl⟩

/-- A run in which the previous manifest declares `1.0.0` and the current
manifest declares `1.1.0` — a version bump. -/
def worldBump : World :=
  { before_sha_env := "abcdef1234"
  , github_output := ""
  , output_prior := ""
  , readText := fun p => if p = chattyCratePath then .ok manifest110 else .error .fileNotFound
  , loads := fun s =>
      if s = manifest110 then .ok (tomlPkg "1.1.0")
      else if s = manifest100 then .ok (tomlPkg "1.0.0") else .error .tomlDecodeError
  , gitShow := fun _ _ => .ok manifest100
  , gitRevParseParent := .exitFailure }

/-- C3, witness for the amended theorem on the bump run `worldBump`. -/
theorem client_release_needed_iff_witness :
    (({ server_release_needed := false, client_release_needed := true
      , server_version := none, client_version := some (Toml.vStr "1.1.0") } : Flags).client_release_needed = true ↔
      (pyTruthyOpt (some (Toml.vStr "1.1.0")) = true ∧
        ((some (Toml.vStr "1.0.0") : Option Toml) = none ∨
          (pyTruthyOpt (some (Toml.vStr "1.0.0")) = true ∧
            specTransition (some (Toml.vStr "1.0.0")) (some (Toml.vStr "1.1.0")) =
              Transition.Bump)))) ∧
    (pyTruthyOpt (some (Toml.vStr "1.1.0")) = false →
      ({ server_release_needed := false, client_release_needed := true
       , server_version := none, client_version := some (Toml.vStr "1.1.0") } : Flags) = initFlags) :=
  client_release_needed_iff worldBump "abcdef1234"
    (some (.vStr "1.1.0")) (some (.vStr "1.0.0")) (some manifest100)
    { server_release_needed := false, client_release_needed := true
    , server_version := none, client_version := some (Toml.vStr "1.1.0") }
    rfl rfl rfl rfl

/-- C10 (confirmed).  When the manifest content fetched at the base commit is
the empty string (the file existed there but was empty), the truthiness guard
of line 80 short-circuits, so the previous version is absent without
`get_version` ever being consulted on that content (the first conjunct holds
for every `loads`), the spec Transition for a truthy current version is
`FirstRelease`, and the run sets the release flag and records the current
version. -/
theorem empty_prev_content_first_release
    (w : World) (sha : String) (cv : Toml) (fl : Flags)
    (hcur : get_version w.loads (w.readText chattyCratePath) none = .ok (some cv))
    (htruthy : pyTruthy cv = true)
    (hpc : get_previous_content w.gitShow sha chattyCratePath = .ok (some ""))
    (hrun : runCrates w sha BINARY_CRATES initFlags = .ok fl) :
    resolve_previous_version w.loads (w.readText chattyCratePath) (some "") = .ok none ∧
    specTransition none (some cv) = Transition.FirstRelease ∧
    fl.client_release_needed = true ∧
    fl.client_version = some cv := by
  have hprev : resolve_previous_version w.loads (w.readText chattyCratePath) (some "") =
      .ok none := by
    simp [resolve_previous_version]
  rw [runCrates_singleton w sha (some cv) none (some "") hcur hpc hprev] at hrun
  have hfl : stepFlags initFlags "chatty" none (some cv) = fl := Except.ok.inj hrun
  refine ⟨hprev, rfl, ?_, ?_⟩
  · rw [← hfl]; simp [stepFlags, htruthy]
  · rw [← hfl]; simp [stepFlags, htruthy]

/-- A run in which the manifest existed at the base commit but was empty, and
the current manifest declares `2.0.0`. -/
def worldEmptyPrevContent : World :=
  { before_sha_env := "abcdef1234"
  , github_output := ""
  , output_prior := ""
  , readText := fun p => if p = chattyCratePath then .ok manifest200 else .error .fileNotFound
  , loads := fun s => if s = manifest200 then .ok (tomlPkg "2.0.0") else .error .tomlDecodeError
  , gitShow := fun _ _ => .ok ""
  , gitRevParseParent := .exitFailure }

/-- C10, witness on the concrete run `worldEmptyPrevContent`. -/
theorem empty_prev_content_first_release_witness :
    resolve_previous_version worldEmptyPrevContent.loads
      (worldEmptyPrevContent.readText chattyCratePath) (some "") = .ok none ∧
    specTransition none (some (Toml.vStr "2.0.0")) = Transition.FirstRelease ∧
    ({ server_release_needed := false, client_release_needed := true
     , server_version := none, client_version := some (Toml.vStr "2.0.0") } : Flags).client_release_needed = true ∧
    ({ server_release_needed := false, client_release_needed := true
     , server_version := none, client_version := some (Toml.vStr "2.0.0") } : Flags).client_version =
      some (Toml.vStr "2.0.0") :=
  empty_prev_content_first_release worldEmptyPrevContent "abcdef1234" (.vStr "2.0.0")
    { server_release_needed := false, client_release_needed := true
    , server_version := none, client_version := some (Toml.vStr "2.0.0") }
    rfl (by decide) rfl rfl

/-- The `client_version` key appears among the written pairs exactly when the
recorded client version is truthy (resolved and non-empty). -/
theorem outputPairs_client_key (fl : Flags) :
    (∃ v, ("client_version", v) ∈ outputPairs fl) ↔ pyTruthyOpt fl.client_version = true := by
  have h1 : ("client_version" : String) ≠ "server_release_needed" := by decide
  have h2 : ("client_version" : String) ≠ "client_release_needed" := by decide
  have h3 : ("client_version" : String) ≠ "server_version" := by decide
  by_cases hs : pyTruthyOpt fl.server_version <;>
    by_cases hc : pyTruthyOpt fl.client_version <;>
      simp [outputPairs, hs, hc, h1, h2, h3]

/-- The `server_version` key appears among the written pairs exactly when the
recorded server version is truthy (resolved and non-empty). -/
theorem outputPairs_server_key (fl : Flags) :
    (∃ v, ("server_version", v) ∈ outputPairs fl) ↔ pyTruthyOpt fl.server_version = true := by
  have h1 : ("server_version" : String) ≠ "server_release_needed" := by decide
  have h2 : ("server_version" : String) ≠ "client_release_needed" := by decide
  have h3 : ("server_version" : String) ≠ "client_version" := by decide
  by_cases hs : pyTruthyOpt fl.server_version <;>
    by_cases hc : pyTruthyOpt fl.client_version <;>
      simp [outputPairs, hs, hc, h1, h2, h3]

/-- C8 (confirmed).  When an output file is configured, a successful run
leaves the prior content of the file as a prefix of the final content (the
file is opened in append mode, so earlier writes from the same pipeline run
are never truncated or overwritten), and each of the two version keys is
written if and only if the corresponding version variable holds a truthy
(resolved, non-empty) value — the key is omitted entirely otherwise.  In the
no-change case the version is still resolved, so the key is still emitted
(see the witness). -/
theorem output_version_keys_iff (w : World) (r : MainResult)
    (hmain : main w = .ok r) (hout : w.github_output ≠ "") :
    (∃ rest, r.output_content = w.output_prior ++ rest) ∧
    ((∃ v, ("client_version", v) ∈ r.output_pairs) ↔
      pyTruthyOpt r.flags.client_version = true) ∧
    ((∃ v, ("server_version", v) ∈ r.output_pairs) ↔
      pyTruthyOpt r.flags.server_version = true) := by
  unfold main at hmain
  cases hsha : resolve_before_sha w with
  | error e => rw [hsha] at hmain; simp at hmain
  | ok sha =>
      rw [hsha] at hmain
      rw [except_bind_ok] at hmain
      cases hrun : runCrates w sha BINARY_CRATES initFlags with
      | error e => rw [hrun] at hmain; simp at hmain
      | ok fl =>
          rw [hrun] at hmain
          rw [except_bind_ok, if_neg hout] at hmain
          have hr : _ = r := Except.ok.inj hmain
          subst hr
          exact ⟨⟨String.join ((outputPairs fl).map renderPair), rfl⟩,
            outputPairs_client_key fl, outputPairs_server_key fl⟩

/-- A no-change run (previous and current versions both `1.0.0`) with a
configured output file that already holds prior content. -/
def worldNoChange : World :=
  { before_sha_env := "abcdef1234"
  , github_output := "github_output.txt"
  , output_prior := "prior_key=prior_value\n"
  , readText := fun p => if p = chattyCratePath then .ok manifest100 else .error .fileNotFound
  , loads := fun s => if s = manifest100 then .ok (tomlPkg "1.0.0") else .error .tomlDecodeError
  , gitShow := fun _ _ => .ok manifest100
  , gitRevParseParent := .exitFailure }

/-- The result of the `worldNoChange` run: no release needed, yet the
`client_version` key is still emitted with the resolved version `1.0.0`, and
the file content starts with the prior content. -/
def resultNoChange : MainResult :=
  { flags := { server_release_needed := false, client_release_needed := false
             , server_version := none, client_version := some (.vStr "1.0.0") }
  , output_pairs := [("server_release_needed", "false"), ("client_release_needed", "false"),
      ("client_version", "1.0.0")]
  , output_content :=
      "prior_key=prior_value\nserver_release_needed=false\nclient_release_needed=false\nclient_version=1.0.0\n" }

/-- C8, witness on the no-change run `worldNoChange`: spec scenario 3 — the
release flag stays `false` but the version key is still emitted. -/
theorem output_version_keys_iff_witness :
    resultNoChange.flags.client_release_needed = false ∧
    (∃ rest, resultNoChange.output_content = worldNoChange.output_prior ++ rest) ∧
    ((∃ v, ("client_version", v) ∈ resultNoChange.output_pairs) ↔
      pyTruthyOpt resultNoChange.flags.client_version = true) ∧
    ((∃ v, ("server_version", v) ∈ resultNoChange.output_pairs) ↔
      pyTruthyOpt resultNoChange.flags.server_version = true) :=
  ⟨rfl, (output_version_keys_iff worldNoChange resultNoChange rfl (by decide)).1,
    (output_version_keys_iff worldNoChange resultNoChange rfl (by decide)).2.1,
    (output_version_keys_iff worldNoChange resultNoChange rfl (by decide)).2.2⟩

end DetectRelease
